import Mathlib

set_option maxHeartbeats 1000000

/-!
Verification of the kmd daemon-client library (algosdk/kmd.py).

The development shallowly embeds the request-construction and
response-handling code of `KMDClient`.  JSON values are modelled by the
inductive `Json`; Python runtime exceptions that the code can raise or
catch are modelled by `PyExn`; the HTTP request the client hands to the
transport is modelled by `HttpRequest`.  Collaborator modules that are
not part of the source under verification (the protocol constants, the
address codec, the transaction types, and the Python standard library's
json / urllib / base64 helpers) are modelled from the specification; each
such definition carries a doc comment saying so.
-/

/-- JSON values as produced by Python's json.loads: null, booleans,
numbers (the protocol only uses integers), strings, arrays and objects.
Objects keep their fields as an ordered association list with distinct
keys, matching insertion order of a Python dict. -/
inductive Json where
  | null
  | bool (b : Bool)
  | num (n : Int)
  | str (s : String)
  | arr (elems : List Json)
  | obj (fields : List (String × Json))

/-- Python runtime exceptions relevant to the client: TypeError and
KeyError from subscripting, json.JSONDecodeError from parsing, and the
library's own error.KMDHTTPError carrying the value it was raised with. -/
inductive PyExn where
  | typeError
  | keyError
  | jsonDecodeError
  | KMDHTTPError (msg : Json)

/-- Key lookup in a JSON object's field list (first match; field lists
built by the parser have distinct keys, like a Python dict). -/
def lookupField : List (String × Json) → String → Option Json
  | [], _ => none
  | (k, v) :: rest, key => if k = key then some v else lookupField rest key

/-- Insert or overwrite a key in a field list, keeping the position of an
existing key and appending a new one, like assignment into a Python dict. -/
def insertField : List (String × Json) → String → Json → List (String × Json)
  | [], k, v => [(k, v)]
  | (k0, v0) :: rest, k, v =>
    if k0 = k then (k0, v) :: rest else (k0, v0) :: insertField rest k v

/-- Python truthiness of a JSON value: empty containers, empty strings,
zero, False and None are falsy. -/
def py_truthy : Json → Bool
  | Json.null => false
  | Json.bool b => b
  | Json.num n => decide (n ≠ 0)
  | Json.str s => !s.isEmpty
  | Json.arr xs => !xs.isEmpty
  | Json.obj fs => !fs.isEmpty

/-- Membership of a string among JSON values, as Python's == would test it
inside a list: only string elements can compare equal to a string. -/
def jsonListHasStr : List Json → String → Bool
  | [], _ => false
  | Json.str s :: rest, key => s = key || jsonListHasStr rest key
  | _ :: rest, key => jsonListHasStr rest key

/-- Substring test on character lists, for Python's `in` on strings. -/
def listHasSub (needle : List Char) : List Char → Bool
  | [] => needle.isEmpty
  | c :: rest => List.isPrefixOf needle (c :: rest) || listHasSub needle rest

/-- Python's `key in value` for a JSON value: key membership for a dict,
element membership for a list, substring test for a string, TypeError
otherwise. -/
def py_contains (j : Json) (key : String) : Except PyExn Bool :=
  match j with
  | Json.obj fields => Except.ok (lookupField fields key).isSome
  | Json.arr xs => Except.ok (jsonListHasStr xs key)
  | Json.str s => Except.ok (listHasSub key.data s.data)
  | _ => Except.error PyExn.typeError

/-- Python's `value[key]` with a string key: dict lookup (KeyError when the
key is absent), TypeError on any non-dict value. -/
def py_subscript (j : Json) (key : String) : Except PyExn Json :=
  match j with
  | Json.obj fields =>
    match lookupField fields key with
    | some v => Except.ok v
    | none => Except.error PyExn.keyError
  | _ => Except.error PyExn.typeError

/-- Python dict equality against the empty dict: `value == dict()` holds
exactly for a dict with no keys; a value of any other type is unequal. -/
def isEmptyDict : Json → Bool
  | Json.obj [] => true
  | _ => false

/-- The left-brace character, written via its code point. -/
def lbraceChar : Char := Char.ofNat 123

/-- The right-brace character, written via its code point. -/
def rbraceChar : Char := Char.ofNat 125

/-- Whitespace accepted between JSON tokens. -/
def isWsChar (ch : Char) : Bool :=
  ch = ' ' || ch = '\n' || ch = '\t' || ch = '\r'

/-- Drop leading JSON whitespace. -/
def skipWs (cs : List Char) : List Char := cs.dropWhile isWsChar

/-- Body of a JSON string literal after the opening quote: returns the
decoded characters and the input remaining after the closing quote.
Handles the backslash escapes the protocol can produce. -/
def parseStrChars : Nat → List Char → Option (List Char × List Char)
  | 0, _ => none
  | _ + 1, [] => none
  | fuel + 1, ch :: rest =>
    if ch = '"' then some ([], rest)
    else if ch = '\\' then
      match rest with
      | [] => none
      | e :: rest2 =>
        let dec : Option Char :=
          if e = '"' then some '"'
          else if e = '\\' then some '\\'
          else if e = '/' then some '/'
          else if e = 'n' then some '\n'
          else if e = 't' then some '\t'
          else if e = 'r' then some '\r'
          else none
        match dec with
        | some d => (parseStrChars fuel rest2).map (fun p => (d :: p.1, p.2))
        | none => none
    else (parseStrChars fuel rest).map (fun p => (ch :: p.1, p.2))

/-- Digit characters to a natural number. -/
def digitsToNat (ds : List Char) : Nat :=
  ds.foldl (fun acc ch => acc * 10 + (ch.toNat - 48)) 0

/-- Parser mode: a single value, the tail of an array, or the tail of an
object, with the elements or fields accumulated so far. -/
inductive PMode where
  | val
  | elems (acc : List Json)
  | fields (acc : List (String × Json))

/-- Modelled from the spec: recursive-descent JSON parsing as done by the
Python standard library's json.loads on response bodies (an external
collaborator of the client).  Structural on an explicit fuel argument;
covers the fragment the protocol uses (objects, arrays, strings with
backslash escapes, integers, true / false / null).  Duplicate object keys
overwrite earlier ones, as in a Python dict. -/
def parseJ : Nat → PMode → List Char → Option (Json × List Char)
  | 0, _, _ => none
  | fuel + 1, PMode.val, cs =>
    match skipWs cs with
    | [] => none
    | ch :: rest =>
      if ch = '"' then
        (parseStrChars (fuel + 1) rest).map (fun p => (Json.str (String.mk p.1), p.2))
      else if ch = '[' then
        match skipWs rest with
        | ']' :: rest2 => some (Json.arr [], rest2)
        | _ => parseJ fuel (PMode.elems []) rest
      else if ch = lbraceChar then
        match skipWs rest with
        | c2 :: rest2 =>
          if c2 = rbraceChar then some (Json.obj [], rest2)
          else parseJ fuel (PMode.fields []) rest
        | [] => none
      else if ch = 't' then
        match rest with
        | 'r' :: 'u' :: 'e' :: rest2 => some (Json.bool true, rest2)
        | _ => none
      else if ch = 'f' then
        match rest with
        | 'a' :: 'l' :: 's' :: 'e' :: rest2 => some (Json.bool false, rest2)
        | _ => none
      else if ch = 'n' then
        match rest with
        | 'u' :: 'l' :: 'l' :: rest2 => some (Json.null, rest2)
        | _ => none
      else if ch = '-' then
        match rest.span Char.isDigit with
        | ([], _) => none
        | (ds, rest2) => some (Json.num (-(digitsToNat ds : Int)), rest2)
      else if ch.isDigit then
        match (ch :: rest).span Char.isDigit with
        | (ds, rest2) => some (Json.num (digitsToNat ds : Int), rest2)
      else none
  | fuel + 1, PMode.elems acc, cs =>
    match parseJ fuel PMode.val cs with
    | none => none
    | some (v, rest) =>
      match skipWs rest with
      | ',' :: rest2 => parseJ fuel (PMode.elems (acc ++ [v])) rest2
      | ']' :: rest2 => some (Json.arr (acc ++ [v]), rest2)
      | _ => none
  | fuel + 1, PMode.fields acc, cs =>
    match skipWs cs with
    | [] => none
    | ch :: rest =>
      if ch = '"' then
        match parseStrChars (fuel + 1) rest with
        | none => none
        | some (kcs, rest2) =>
          match skipWs rest2 with
          | ':' :: rest3 =>
            match parseJ fuel PMode.val rest3 with
            | none => none
            | some (v, rest4) =>
              let acc2 := insertField acc (String.mk kcs) v
              match skipWs rest4 with
              | ',' :: rest5 => parseJ fuel (PMode.fields acc2) rest5
              | c2 :: rest5 =>
                if c2 = rbraceChar then some (Json.obj acc2, rest5) else none
              | [] => none
          | _ => none
      else none

/-- Modelled from the spec: json.loads on a whole document — a single JSON
value with only whitespace around it, else a parse failure. -/
def json_loads (s : String) : Option Json :=
  match parseJ (2 * s.length + 16) PMode.val s.data with
  | some (v, rest) => if (skipWs rest).isEmpty then some v else none
  | none => none

/-- Characters of a JSON string literal for one source character. -/
def jsonQuoteChar (ch : Char) : List Char :=
  if ch = '"' then ['\\', '"'] else if ch = '\\' then ['\\', '\\'] else [ch]

/-- A JSON string literal for a string value. -/
def jsonQuote (s : String) : String :=
  String.mk ('"' :: (s.data.map jsonQuoteChar).flatten ++ ['"'])

mutual

/-- Modelled from the spec: serialization of a JSON mapping by the Python
standard library's json.dumps (an external collaborator); the source
passes indent=2, whose extra whitespace no claim depends on, so the
rendering here is the compact one. -/
def json_dumps : Json → String
  | Json.null => "null"
  | Json.bool b => if b then "true" else "false"
  | Json.num n => toString n
  | Json.str s => jsonQuote s
  | Json.arr xs => "[" ++ dumpsElems xs ++ "]"
  | Json.obj fs => String.mk [lbraceChar] ++ dumpsMembers fs ++ String.mk [rbraceChar]

/-- Array elements of a serialized JSON document. -/
def dumpsElems : List Json → String
  | [] => ""
  | [x] => json_dumps x
  | x :: y :: xs => json_dumps x ++ ", " ++ dumpsElems (y :: xs)

/-- Object members of a serialized JSON document. -/
def dumpsMembers : List (String × Json) → String
  | [] => ""
  | [(k, v)] => jsonQuote k ++ ": " ++ json_dumps v
  | (k, v) :: m :: fs => jsonQuote k ++ ": " ++ json_dumps v ++ ", " ++ dumpsMembers (m :: fs)

end

/-- Modelled from the spec: urllib's parse.urlencode of the query
parameters (an external collaborator); keys and values joined by "=" and
"&". -/
def urlencode (ps : List (String × String)) : String :=
  String.intercalate "&" (ps.map (fun p => p.1 ++ "=" ++ p.2))

/-- Modelled from the spec: constants.no_auth (algosdk/constants.py is not
under the verified sources) — the fixed whitelist of paths dispatched
without the auth header, e.g. the versions endpoint. -/
def no_auth : List String := ["/versions"]

/-- Modelled from the spec: constants.unversioned_paths (algosdk/constants.py
is not under the verified sources) — the fixed whitelist of paths
dispatched without the version segment, e.g. a health endpoint. -/
def unversioned_paths : List String := ["/health"]

/-- Modelled from the spec: constants.kmd_auth_header (algosdk/constants.py
is not under the verified sources) — the protocol's static auth-token
header name. -/
def kmd_auth_header : String := "X-KMD-API-Token"

/-- kmd.py line 10: the API version path segment. -/
def api_version_path_prefix : String := "/v1"

/-- The kmd client configuration: its API token and base address
(kmd.py lines 26-28). -/
structure KMDClient where
  kmd_token : String
  kmd_address : String

/-- The data argument the client passes to the transport's Request
constructor: Python None, UTF-8 bytes of a serialized JSON document, or —
when the caller hands kmd_request a falsy mapping — that mapping passed
through unserialized. -/
inductive ReqBody where
  | noData
  | jsonBytes (s : String)
  | rawObj (d : Json)

/-- The request handed to the transport (urllib Request): full URL,
headers, method, and body data (kmd.py lines 56-58). -/
structure HttpRequest where
  url : String
  headers : List (String × String)
  method : String
  body : ReqBody

/-- Request construction of kmd_request (kmd.py lines 44-58): auth header
unless the path is whitelisted, version prefix unless the path is
whitelisted, URL-encoded query string when params is truthy, JSON-encoded
body when data is truthy. -/
def buildRequest (c : KMDClient) (method : String) (requrl : String)
    (params : Option (List (String × String))) (data : Option Json) : HttpRequest :=
  let header : List (String × String) :=
    if requrl ∈ no_auth then [] else [(kmd_auth_header, c.kmd_token)]
  let requrl1 : String :=
    if requrl ∉ unversioned_paths then api_version_path_prefix ++ requrl else requrl
  let requrl2 : String :=
    match params with
    | some ps => if ps.isEmpty then requrl1 else requrl1 ++ "?" ++ urlencode ps
    | none => requrl1
  let body : ReqBody :=
    match data with
    | some d => if py_truthy d then ReqBody.jsonBytes (json_dumps d) else ReqBody.rawObj d
    | none => ReqBody.noData
  { url := c.kmd_address ++ requrl2, headers := header, method := method, body := body }

/-- kmd.py lines 64-65: the body of the inner try — evaluate
json.loads(e)["message"] and raise KMDHTTPError on the result.  Whatever
happens, the try body ends in a raised exception: a JSONDecodeError when
the body is not JSON, a TypeError or KeyError from the subscript, or the
KMDHTTPError built from the parsed message itself. -/
def innerRaise (e : String) : PyExn :=
  match json_loads e with
  | none => PyExn.jsonDecodeError
  | some j =>
    match py_subscript j "message" with
    | Except.error exn => exn
    | Except.ok v => PyExn.KMDHTTPError v

/-- kmd.py lines 62-67: handling of a non-2xx transport response.  The
bare except catches every exception raised in the try body — including
the KMDHTTPError already carrying the parsed message — and raises
KMDHTTPError(e) with the raw decoded body text. -/
def handleHTTPError (e : String) : PyExn :=
  match innerRaise e with
  | _ => PyExn.KMDHTTPError (Json.str e)

/-- The transport outcome urlopen produces for the client: a 2xx response
with a body, or an HTTPError with a status code and a body. -/
inductive HttpResp where
  | ok (body : String)
  | httpError (code : Nat) (body : String)

/-- kmd.py lines 30-68: kmd_request builds the request from the client
configuration and arguments, and turns the transport outcome into either
the JSON-decoded 2xx body or a raised error. -/
def kmd_request (c : KMDClient) (method requrl : String)
    (params : Option (List (String × String))) (data : Option Json)
    (resp : HttpResp) : HttpRequest × Except PyExn Json :=
  let req := buildRequest c method requrl params data
  match resp with
  | HttpResp.httpError _ body => (req, Except.error (handleHTTPError body))
  | HttpResp.ok body =>
    match json_loads body with
    | some j => (req, Except.ok j)
    | none => (req, Except.error PyExn.jsonDecodeError)

/-- Modelled from the spec: base64.b64decode of a wire string into raw
bytes (an external collaborator).  Raw byte sequences are modelled as the
code-point list of the wire string, making the codec the canonical
bijection the claims rely on. -/
def b64decode (s : String) : List Char := s.data

/-- Modelled from the spec: base64.b64encode of raw bytes into a wire
string (an external collaborator); inverse of b64decode. -/
def b64encode (bs : List Char) : String := String.mk bs

/-- Modelled from the spec: encoding.encode_address of the AddressCodec
(algosdk/encoding.py is not under the verified sources) — the canonical
conversion from a raw public key to its address string. -/
def encode_address (pk : List Char) : String := String.mk pk

/-- Modelled from the spec: encoding.decode_address of the AddressCodec
(algosdk/encoding.py is not under the verified sources) — the canonical
conversion from an address string back to the raw public key. -/
def decode_address (a : String) : List Char := a.data

/-- Modelled from the spec: one member entry of a multisig account
(transaction.MultisigSubsig, not under the verified sources), exposing
the member's raw public key. -/
structure MultisigSubsig where
  public_key : List Char

/-- Modelled from the spec: a multisig account (transaction.Multisig, not
under the verified sources): version, threshold and the ordered member
subsigs.  Version and threshold are daemon-supplied values the client
passes through opaquely. -/
structure Multisig where
  version : Json
  threshold : Json
  subsigs : List MultisigSubsig

/-- Modelled from the spec: the transaction.Multisig constructor takes
(version, threshold, ordered addresses) and stores each address's decoded
raw public key in a subsig. -/
def Multisig.ofAddresses (version threshold : Json) (addrs : List String) : Multisig :=
  { version := version, threshold := threshold,
    subsigs := addrs.map (fun a => { public_key := decode_address a }) }

/-- Modelled from the spec: Multisig.json_dictify, the opaque rendering of
the partial multisig structure the client sends as the partial_multisig
field. -/
def Multisig.json_dictify (m : Multisig) : Json :=
  Json.obj [("subsig", Json.arr (m.subsigs.map
              (fun s => Json.obj [("pk", Json.str (b64encode s.public_key))]))),
            ("thr", m.threshold), ("v", m.version)]

/-- Modelled from the spec: an opaque transaction object (the transaction
types are external collaborators); the client only msgpack-encodes it. -/
structure Transaction where
  blob : String

/-- Modelled from the spec: encoding.msgpack_encode of an opaque
transaction object into its wire blob. -/
def msgpack_encode (t : Transaction) : String := t.blob

/-- Modelled from the spec: an opaque signed transaction produced by the
daemon; the client only msgpack-decodes it. -/
structure SignedTxn where
  blob : String

/-- Modelled from the spec: encoding.msgpack_decode of the daemon's
signed_transaction blob into the opaque signed transaction. -/
def msgpack_decode_stx (s : String) : SignedTxn := { blob := s }

/-- List of JSON values that are all strings, extracted; fails otherwise
(a non-string where Python expects str raises a TypeError downstream). -/
def asStrList : List Json → Option (List String)
  | [] => some []
  | Json.str s :: rest => (asStrList rest).map (fun t => s :: t)
  | _ => none

/-- Modelled from the spec: encoding.msgpack_decode of the daemon's
multisig blob into a Multisig value.  The byte-level msgpack coding is an
external collaborator; it is modelled as the canonical textual coding of
the same (version, threshold, member keys) fields. -/
def msgpack_decode_msig (s : String) : Except PyExn Multisig :=
  match json_loads s with
  | some (Json.obj fs) =>
    match lookupField fs "v", lookupField fs "thr", lookupField fs "subsig" with
    | some v, some t, some (Json.arr ss) =>
      match asStrList ss with
      | some pks =>
        Except.ok { version := v, threshold := t,
                    subsigs := pks.map (fun p => { public_key := b64decode p }) }
      | none => Except.error PyExn.typeError
    | _, _, _ => Except.error PyExn.typeError
  | _ => Except.error PyExn.typeError

/-- Modelled from the spec: a multisig transaction
(transaction.MultisigTransaction, not under the verified sources): the
wrapped transaction, the multisig structure, and the optional authorizing
address, modelled as an explicit optional field as the spec directs. -/
structure MultisigTransaction where
  transaction : Transaction
  multisig : Multisig
  auth_addr : Option String

namespace KMDClient

/-- kmd.py lines 70-78: versions — GET /versions, extract "versions". -/
def versions (c : KMDClient) (resp : Json) : HttpRequest × Except PyExn Json :=
  (buildRequest c "GET" "/versions" none none, py_subscript resp "versions")

/-- kmd.py lines 80-92: list_wallets — GET /wallets; the "wallets" field
when present, else the empty list. -/
def list_wallets (c : KMDClient) (resp : Json) : HttpRequest × Except PyExn Json :=
  (buildRequest c "GET" "/wallets" none none,
   match py_contains resp "wallets" with
   | Except.error e => Except.error e
   | Except.ok b => if b then py_subscript resp "wallets" else Except.ok (Json.arr []))

/-- kmd.py lines 94-122: create_wallet — POST /wallet with driver name,
wallet name and password, plus the master derivation key when truthy;
extract "wallet". -/
def create_wallet (c : KMDClient) (name pswd driver_name : String)
    (master_deriv_key : Option String) (resp : Json) : HttpRequest × Except PyExn Json :=
  let query : List (String × Json) :=
    [("wallet_driver_name", Json.str driver_name),
     ("wallet_name", Json.str name),
     ("wallet_password", Json.str pswd)]
  let query : List (String × Json) :=
    match master_deriv_key with
    | some k => if k.isEmpty then query else query ++ [("master_derivation_key", Json.str k)]
    | none => query
  (buildRequest c "POST" "/wallet" none (some (Json.obj query)), py_subscript resp "wallet")

/-- kmd.py lines 124-138: get_wallet — POST /wallet/info with the handle;
extract "wallet_handle". -/
def get_wallet (c : KMDClient) (handle : String) (resp : Json) : HttpRequest × Except PyExn Json :=
  (buildRequest c "POST" "/wallet/info" none
     (some (Json.obj [("wallet_handle_token", Json.str handle)])),
   py_subscript resp "wallet_handle")

/-- kmd.py lines 140-155: init_wallet_handle — POST /wallet/init with id
and password; extract "wallet_handle_token". -/
def init_wallet_handle (c : KMDClient) (id password : String) (resp : Json) :
    HttpRequest × Except PyExn Json :=
  (buildRequest c "POST" "/wallet/init" none
     (some (Json.obj [("wallet_id", Json.str id), ("wallet_password", Json.str password)])),
   py_subscript resp "wallet_handle_token")

/-- kmd.py lines 157-170: release_wallet_handle — POST /wallet/release
with the handle; True exactly when the response equals the empty dict. -/
def release_wallet_handle (c : KMDClient) (handle : String) (resp : Json) :
    HttpRequest × Bool :=
  (buildRequest c "POST" "/wallet/release" none
     (some (Json.obj [("wallet_handle_token", Json.str handle)])),
   isEmptyDict resp)

/-- kmd.py lines 172-186: renew_wallet_handle — POST /wallet/renew with
the handle; extract "wallet_handle". -/
def renew_wallet_handle (c : KMDClient) (handle : String) (resp : Json) :
    HttpRequest × Except PyExn Json :=
  (buildRequest c "POST" "/wallet/renew" none
     (some (Json.obj [("wallet_handle_token", Json.str handle)])),
   py_subscript resp "wallet_handle")

/-- kmd.py lines 188-206: rename_wallet — POST /wallet/rename with id,
password and the new name; extract "wallet". -/
def rename_wallet (c : KMDClient) (id password new_name : String) (resp : Json) :
    HttpRequest × Except PyExn Json :=
  (buildRequest c "POST" "/wallet/rename" none
     (some (Json.obj [("wallet_id", Json.str id), ("wallet_password", Json.str password),
                      ("wallet_name", Json.str new_name)])),
   py_subscript resp "wallet")

/-- kmd.py lines 208-222: export_master_derivation_key — POST
/master-key/export with handle and password; extract
"master_derivation_key". -/
def export_master_derivation_key (c : KMDClient) (handle password : String) (resp : Json) :
    HttpRequest × Except PyExn Json :=
  (buildRequest c "POST" "/master-key/export" none
     (some (Json.obj [("wallet_handle_token", Json.str handle),
                      ("wallet_password", Json.str password)])),
   py_subscript resp "master_derivation_key")

/-- kmd.py lines 224-237: import_key — POST /key/import with handle and
private key; extract "address". -/
def import_key (c : KMDClient) (handle private_key : String) (resp : Json) :
    HttpRequest × Except PyExn Json :=
  (buildRequest c "POST" "/key/import" none
     (some (Json.obj [("wallet_handle_token", Json.str handle),
                      ("private_key", Json.str private_key)])),
   py_subscript resp "address")

/-- kmd.py lines 239-259: export_key — POST /key/export with handle,
password and address; extract "private_key". -/
def export_key (c : KMDClient) (handle password address : String) (resp : Json) :
    HttpRequest × Except PyExn Json :=
  (buildRequest c "POST" "/key/export" none
     (some (Json.obj [("wallet_handle_token", Json.str handle),
                      ("wallet_password", Json.str password),
                      ("address", Json.str address)])),
   py_subscript resp "private_key")

/-- kmd.py lines 261-275: generate_key — POST /key; the display_mnemonic
parameter is accepted but never read, and the body carries only the
wallet handle token; extract "address". -/
def generate_key (c : KMDClient) (handle : String) (display_mnemonic : Bool) (resp : Json) :
    HttpRequest × Except PyExn Json :=
  (buildRequest c "POST" "/key" none
     (some (Json.obj [("wallet_handle_token", Json.str handle)])),
   py_subscript resp "address")

/-- kmd.py lines 277-296: delete_key — DELETE /key with handle, password
and address; True exactly when the response equals the empty dict. -/
def delete_key (c : KMDClient) (handle password address : String) (resp : Json) :
    HttpRequest × Bool :=
  (buildRequest c "DELETE" "/key" none
     (some (Json.obj [("wallet_handle_token", Json.str handle),
                      ("wallet_password", Json.str password),
                      ("address", Json.str address)])),
   isEmptyDict resp)

/-- kmd.py lines 298-314: list_keys — POST /key/list with the handle; a
truthy response yields its "addresses" field, a falsy one the empty
list. -/
def list_keys (c : KMDClient) (handle : String) (resp : Json) :
    HttpRequest × Except PyExn Json :=
  (buildRequest c "POST" "/key/list" none
     (some (Json.obj [("wallet_handle_token", Json.str handle)])),
   if py_truthy resp then py_subscript resp "addresses" else Except.ok (Json.arr []))

/-- kmd.py lines 316-343: sign_transaction — POST /transaction/sign with
handle, password and the msgpack-encoded transaction, plus public_key
when a signing address is truthy; extract and decode
"signed_transaction". -/
def sign_transaction (c : KMDClient) (handle password : String) (txn : Transaction)
    (signing_address : Option String) (resp : Json) :
    HttpRequest × Except PyExn SignedTxn :=
  let txnE := msgpack_encode txn
  let query : List (String × Json) :=
    [("wallet_handle_token", Json.str handle),
     ("wallet_password", Json.str password),
     ("transaction", Json.str txnE)]
  let query : List (String × Json) :=
    match signing_address with
    | some a => if a.isEmpty then query else query ++ [("public_key", Json.str a)]
    | none => query
  (buildRequest c "POST" "/transaction/sign" none (some (Json.obj query)),
   match py_subscript resp "signed_transaction" with
   | Except.error e => Except.error e
   | Except.ok (Json.str s) => Except.ok (msgpack_decode_stx s)
   | Except.ok _ => Except.error PyExn.typeError)

/-- kmd.py lines 345-360: list_multisig — POST /multisig/list with the
handle; a response equal to the empty dict yields the empty list, any
other yields its "addresses" field. -/
def list_multisig (c : KMDClient) (handle : String) (resp : Json) :
    HttpRequest × Except PyExn Json :=
  (buildRequest c "POST" "/multisig/list" none
     (some (Json.obj [("wallet_handle_token", Json.str handle)])),
   if isEmptyDict resp then Except.ok (Json.arr []) else py_subscript resp "addresses")

/-- kmd.py lines 374-382: the query object import_multisig sends — the
handle, the multisig's version and threshold, and each subsig's public
key re-encoded in base64. -/
def import_multisig_query (handle : String) (m : Multisig) : Json :=
  Json.obj [("wallet_handle_token", Json.str handle),
            ("multisig_version", m.version),
            ("threshold", m.threshold),
            ("pks", Json.arr (m.subsigs.map (fun s => Json.str (b64encode s.public_key))))]

/-- kmd.py lines 362-383: import_multisig — POST /multisig/import with
the import query; extract "address". -/
def import_multisig (c : KMDClient) (handle : String) (m : Multisig) (resp : Json) :
    HttpRequest × Except PyExn Json :=
  (buildRequest c "POST" "/multisig/import" none (some (import_multisig_query handle m)),
   py_subscript resp "address")

/-- kmd.py lines 385-404: export_multisig — POST /multisig/export with
handle and address; rebuild the Multisig from the response's "pks"
(each base64-decoded then re-encoded as an address), "multisig_version"
and "threshold". -/
def export_multisig (c : KMDClient) (handle address : String) (result : Json) :
    HttpRequest × Except PyExn Multisig :=
  (buildRequest c "POST" "/multisig/export" none
     (some (Json.obj [("wallet_handle_token", Json.str handle),
                      ("address", Json.str address)])),
   match py_subscript result "pks" with
   | Except.error e => Except.error e
   | Except.ok (Json.arr items) =>
     match asStrList items with
     | none => Except.error PyExn.typeError
     | some ps =>
       let addrs := ps.map (fun p => encode_address (b64decode p))
       match py_subscript result "multisig_version" with
       | Except.error e => Except.error e
       | Except.ok v =>
         match py_subscript result "threshold" with
         | Except.error e => Except.error e
         | Except.ok t => Except.ok (Multisig.ofAddresses v t addrs)
   | Except.ok _ => Except.error PyExn.typeError)

/-- kmd.py lines 406-425: delete_multisig — DELETE /multisig with handle,
password and address; True exactly when the response equals the empty
dict. -/
def delete_multisig (c : KMDClient) (handle password address : String) (resp : Json) :
    HttpRequest × Bool :=
  (buildRequest c "DELETE" "/multisig" none
     (some (Json.obj [("wallet_handle_token", Json.str handle),
                      ("wallet_password", Json.str password),
                      ("address", Json.str address)])),
   isEmptyDict resp)

/-- kmd.py lines 443-458: the query object sign_multisig_transaction
sends — handle, password, the msgpack-encoded transaction, the signer's
raw public key in base64, the dictified partial multisig, and a signer
field exactly when the transaction carries a non-None auth_addr. -/
def sign_multisig_query (handle password public_key : String)
    (mtx : MultisigTransaction) : List (String × Json) :=
  let pmsig := mtx.multisig.json_dictify
  let txn := msgpack_encode mtx.transaction
  let pk := b64encode (decode_address public_key)
  let query : List (String × Json) :=
    [("wallet_handle_token", Json.str handle),
     ("wallet_password", Json.str password),
     ("transaction", Json.str txn),
     ("public_key", Json.str pk),
     ("partial_multisig", pmsig)]
  match mtx.auth_addr with
  | some aa => query ++ [("signer", Json.str (b64encode (decode_address aa)))]
  | none => query

/-- kmd.py lines 427-465: sign_multisig_transaction — POST /multisig/sign
with the signing query; decode the response's "multisig" field and store
it in the transaction's multisig slot, returning that same transaction
object. -/
def sign_multisig_transaction (c : KMDClient) (handle password public_key : String)
    (mtx : MultisigTransaction) (resp : Json) :
    HttpRequest × Except PyExn MultisigTransaction :=
  (buildRequest c "POST" "/multisig/sign" none
     (some (Json.obj (sign_multisig_query handle password public_key mtx))),
   match py_subscript resp "multisig" with
   | Except.error e => Except.error e
   | Except.ok (Json.str s) =>
     match msgpack_decode_msig s with
     | Except.error e => Except.error e
     | Except.ok msig => Except.ok { mtx with multisig := msig }
   | Except.ok _ => Except.error PyExn.typeError)

end KMDClient

/-- One operation of the client together with its arguments. -/
inductive KMDCall where
  | versions
  | listWallets
  | createWallet (name pswd driver_name : String) (master_deriv_key : Option String)
  | getWallet (handle : String)
  | initWalletHandle (id password : String)
  | releaseWalletHandle (handle : String)
  | renewWalletHandle (handle : String)
  | renameWallet (id password new_name : String)
  | exportMasterDerivationKey (handle password : String)
  | importKey (handle private_key : String)
  | exportKey (handle password address : String)
  | generateKey (handle : String) (display_mnemonic : Bool)
  | deleteKey (handle password address : String)
  | listKeys (handle : String)
  | signTransaction (handle password : String) (txn : Transaction) (signing_address : Option String)
  | listMultisig (handle : String)
  | importMultisig (handle : String) (m : Multisig)
  | exportMultisig (handle address : String)
  | deleteMultisig (handle password address : String)
  | signMultisigTransaction (handle password public_key : String) (mtx : MultisigTransaction)

/-- The possible results of the client's operations, wrapped uniformly. -/
inductive KMDValue where
  | jsonv (j : Json)
  | boolv (b : Bool)
  | msigv (m : Multisig)
  | stxv (t : SignedTxn)
  | mtxv (t : MultisigTransaction)

/-- Execute one client operation against one parsed daemon response: the
client configuration afterwards (rebuilt from the fields the method body
leaves untouched — no method assigns to them), the single request handed
to the transport, and the operation's result. -/
def execCall (c : KMDClient) : KMDCall → Json → KMDClient × HttpRequest × Except PyExn KMDValue
  | KMDCall.versions, resp =>
    ({ kmd_token := c.kmd_token, kmd_address := c.kmd_address },
     (KMDClient.versions c resp).1, (KMDClient.versions c resp).2.map KMDValue.jsonv)
  | KMDCall.listWallets, resp =>
    ({ kmd_token := c.kmd_token, kmd_address := c.kmd_address },
     (KMDClient.list_wallets c resp).1, (KMDClient.list_wallets c resp).2.map KMDValue.jsonv)
  | KMDCall.createWallet name pswd driver mdk, resp =>
    ({ kmd_token := c.kmd_token, kmd_address := c.kmd_address },
     (KMDClient.create_wallet c name pswd driver mdk resp).1,
     (KMDClient.create_wallet c name pswd driver mdk resp).2.map KMDValue.jsonv)
  | KMDCall.getWallet handle, resp =>
    ({ kmd_token := c.kmd_token, kmd_address := c.kmd_address },
     (KMDClient.get_wallet c handle resp).1, (KMDClient.get_wallet c handle resp).2.map KMDValue.jsonv)
  | KMDCall.initWalletHandle id password, resp =>
    ({ kmd_token := c.kmd_token, kmd_address := c.kmd_address },
     (KMDClient.init_wallet_handle c id password resp).1,
     (KMDClient.init_wallet_handle c id password resp).2.map KMDValue.jsonv)
  | KMDCall.releaseWalletHandle handle, resp =>
    ({ kmd_token := c.kmd_token, kmd_address := c.kmd_address },
     (KMDClient.release_wallet_handle c handle resp).1,
     Except.ok (KMDValue.boolv (KMDClient.release_wallet_handle c handle resp).2))
  | KMDCall.renewWalletHandle handle, resp =>
    ({ kmd_token := c.kmd_token, kmd_address := c.kmd_address },
     (KMDClient.renew_wallet_handle c handle resp).1,
     (KMDClient.renew_wallet_handle c handle resp).2.map KMDValue.jsonv)
  | KMDCall.renameWallet id password new_name, resp =>
    ({ kmd_token := c.kmd_token, kmd_address := c.kmd_address },
     (KMDClient.rename_wallet c id password new_name resp).1,
     (KMDClient.rename_wallet c id password new_name resp).2.map KMDValue.jsonv)
  | KMDCall.exportMasterDerivationKey handle password, resp =>
    ({ kmd_token := c.kmd_token, kmd_address := c.kmd_address },
     (KMDClient.export_master_derivation_key c handle password resp).1,
     (KMDClient.export_master_derivation_key c handle password resp).2.map KMDValue.jsonv)
  | KMDCall.importKey handle private_key, resp =>
    ({ kmd_token := c.kmd_token, kmd_address := c.kmd_address },
     (KMDClient.import_key c handle private_key resp).1,
     (KMDClient.import_key c handle private_key resp).2.map KMDValue.jsonv)
  | KMDCall.exportKey handle password address, resp =>
    ({ kmd_token := c.kmd_token, kmd_address := c.kmd_address },
     (KMDClient.export_key c handle password address resp).1,
     (KMDClient.export_key c handle password address resp).2.map KMDValue.jsonv)
  | KMDCall.generateKey handle dm, resp =>
    ({ kmd_token := c.kmd_token, kmd_address := c.kmd_address },
     (KMDClient.generate_key c handle dm resp).1,
     (KMDClient.generate_key c handle dm resp).2.map KMDValue.jsonv)
  | KMDCall.deleteKey handle password address, resp =>
    ({ kmd_token := c.kmd_token, kmd_address := c.kmd_address },
     (KMDClient.delete_key c handle password address resp).1,
     Except.ok (KMDValue.boolv (KMDClient.delete_key c handle password address resp).2))
  | KMDCall.listKeys handle, resp =>
    ({ kmd_token := c.kmd_token, kmd_address := c.kmd_address },
     (KMDClient.list_keys c handle resp).1,
     (KMDClient.list_keys c handle resp).2.map KMDValue.jsonv)
  | KMDCall.signTransaction handle password txn sa, resp =>
    ({ kmd_token := c.kmd_token, kmd_address := c.kmd_address },
     (KMDClient.sign_transaction c handle password txn sa resp).1,
     (KMDClient.sign_transaction c handle password txn sa resp).2.map KMDValue.stxv)
  | KMDCall.listMultisig handle, resp =>
    ({ kmd_token := c.kmd_token, kmd_address := c.kmd_address },
     (KMDClient.list_multisig c handle resp).1,
     (KMDClient.list_multisig c handle resp).2.map KMDValue.jsonv)
  | KMDCall.importMultisig handle m, resp =>
    ({ kmd_token := c.kmd_token, kmd_address := c.kmd_address },
     (KMDClient.import_multisig c handle m resp).1,
     (KMDClient.import_multisig c handle m resp).2.map KMDValue.jsonv)
  | KMDCall.exportMultisig handle address, resp =>
    ({ kmd_token := c.kmd_token, kmd_address := c.kmd_address },
     (KMDClient.export_multisig c handle address resp).1,
     (KMDClient.export_multisig c handle address resp).2.map KMDValue.msigv)
  | KMDCall.deleteMultisig handle password address, resp =>
    ({ kmd_token := c.kmd_token, kmd_address := c.kmd_address },
     (KMDClient.delete_multisig c handle password address resp).1,
     Except.ok (KMDValue.boolv (KMDClient.delete_multisig c handle password address resp).2))
  | KMDCall.signMultisigTransaction handle password pk mtx, resp =>
    ({ kmd_token := c.kmd_token, kmd_address := c.kmd_address },
     (KMDClient.sign_multisig_transaction c handle password pk mtx resp).1,
     (KMDClient.sign_multisig_transaction c handle password pk mtx resp).2.map KMDValue.mtxv)

/-- The outcome of running a sequence of client operations: the client
configuration afterwards, the requests dispatched (one per executed
operation) and the per-operation results. -/
structure RunResult where
  client : KMDClient
  requests : List HttpRequest
  results : List (Except PyExn KMDValue)

/-- Run a sequence of operations against a matching sequence of parsed
daemon responses, threading the client configuration each operation
returns into the next one. -/
def runCalls : KMDClient → List KMDCall → List Json → RunResult
  | c, [], _ => { client := c, requests := [], results := [] }
  | c, _ :: _, [] => { client := c, requests := [], results := [] }
  | c, call :: calls, resp :: resps =>
    let step := execCall c call resp
    let r := runCalls step.1 calls resps
    { client := r.client, requests := step.2.1 :: r.requests, results := step.2.2 :: r.results }

/-- A response value equals the Python empty dict exactly when it is the
empty JSON object. -/
theorem isEmptyDict_iff (j : Json) : isEmptyDict j = true ↔ j = Json.obj [] := by
  cases j with
  | null => simp [isEmptyDict]
  | bool b => simp [isEmptyDict]
  | num n => simp [isEmptyDict]
  | str s => simp [isEmptyDict]
  | arr xs => simp [isEmptyDict]
  | obj fs => cases fs <;> simp [isEmptyDict]

/-- The query-string suffix kmd_request appends to the path: empty for an
absent or empty parameter mapping, "?" plus the URL-encoded parameters
otherwise. -/
def querySuffix : Option (List (String × String)) → String
  | some ps => if ps.isEmpty then "" else "?" ++ urlencode ps
  | none => ""

/-- String append is associative. -/
theorem strAppendAssoc (a b c : String) : a ++ b ++ c = a ++ (b ++ c) := by
  cases a with | mk da => cases b with | mk db => cases c with | mk dc =>
  show String.mk (da ++ db ++ dc) = String.mk (da ++ (db ++ dc))
  rw [List.append_assoc]

/-- The URL of every dispatched request is the base address, then the path
(version-prefixed unless whitelisted), then the query suffix. -/
theorem buildRequest_url (c : KMDClient) (m path : String)
    (params : Option (List (String × String))) (data : Option Json) :
    (buildRequest c m path params data).url =
      c.kmd_address ++ ((if path ∈ unversioned_paths then path
        else api_version_path_prefix ++ path) ++ querySuffix params) := by
  cases params with
  | none =>
    by_cases h : path ∈ unversioned_paths <;>
      simp [buildRequest, querySuffix, h, strAppendAssoc]
  | some ps =>
    by_cases h : path ∈ unversioned_paths <;> by_cases hp : ps.isEmpty <;>
      simp [buildRequest, querySuffix, h, hp, strAppendAssoc]

/-- C1: the claim says a non-2xx response whose body is a JSON object with
a message field yields a KMDHTTPError carrying exactly that message.  The
code disagrees: the inner raise of kmd.py line 65 is itself caught by the
bare except of line 66, so the error always carries the raw decoded body.
At the claim's own example input the body parses as a JSON object whose
message field is "wallet not found", yet the raised error carries the raw
body text, which differs from "wallet not found"; the non-JSON body
"boom" does yield the raw text "boom" as the claim states. -/
theorem c1_daemon_error_carries_raw_body :
    json_loads "\x7b\"message\":\"wallet not found\"\x7d" =
        some (Json.obj [("message", Json.str "wallet not found")]) ∧
    handleHTTPError "\x7b\"message\":\"wallet not found\"\x7d" =
        PyExn.KMDHTTPError (Json.str "\x7b\"message\":\"wallet not found\"\x7d") ∧
    Json.str "\x7b\"message\":\"wallet not found\"\x7d" ≠ Json.str "wallet not found" ∧
    (kmd_request { kmd_token := "tok", kmd_address := "addr" } "POST" "/wallet" none none
        (HttpResp.httpError 500 "\x7b\"message\":\"wallet not found\"\x7d")).2 =
      Except.error
        (PyExn.KMDHTTPError (Json.str "\x7b\"message\":\"wallet not found\"\x7d")) ∧
    handleHTTPError "boom" = PyExn.KMDHTTPError (Json.str "boom") := by
  refine ⟨rfl, rfl, ?_, rfl, rfl⟩
  intro h
  injection h with h2
  exact absurd h2 (by decide)

/-- C2: release_wallet_handle, delete_key and delete_multisig answer true
exactly when the parsed daemon response is the empty JSON object; every
other response value yields false. -/
theorem c2_empty_object_sentinel (c : KMDClient) (h p a : String) (resp : Json) :
    ((KMDClient.release_wallet_handle c h resp).2 = true ↔ resp = Json.obj []) ∧
    ((KMDClient.delete_key c h p a resp).2 = true ↔ resp = Json.obj []) ∧
    ((KMDClient.delete_multisig c h p a resp).2 = true ↔ resp = Json.obj []) :=
  ⟨isEmptyDict_iff resp, isEmptyDict_iff resp, isEmptyDict_iff resp⟩

/-- C3: a request whose path is outside the no-auth whitelist carries
exactly the auth header with the client's token, and a whitelisted path
carries no header at all. -/
theorem c3_auth_header (c : KMDClient) (m path : String)
    (params : Option (List (String × String))) (data : Option Json) :
    (path ∉ no_auth →
      (buildRequest c m path params data).headers = [(kmd_auth_header, c.kmd_token)]) ∧
    (path ∈ no_auth → (buildRequest c m path params data).headers = []) := by
  constructor <;> intro h <;> simp [buildRequest, h]

/-- Witness for C3 at the paths "/wallet" (not whitelisted) and
"/versions" (whitelisted). -/
theorem c3_auth_header_witness :
    ("/wallet" ∉ no_auth ∧
      (buildRequest { kmd_token := "tok", kmd_address := "addr" } "POST" "/wallet"
          none none).headers = [(kmd_auth_header, "tok")]) ∧
    ("/versions" ∈ no_auth ∧
      (buildRequest { kmd_token := "tok", kmd_address := "addr" } "GET" "/versions"
          none none).headers = []) :=
  ⟨⟨by decide,
    (c3_auth_header { kmd_token := "tok", kmd_address := "addr" } "POST" "/wallet"
        none none).1 (by decide)⟩,
   ⟨by decide,
    (c3_auth_header { kmd_token := "tok", kmd_address := "addr" } "GET" "/versions"
        none none).2 (by decide)⟩⟩

/-- C4: a request whose path is outside the unversioned whitelist is
dispatched at the base address plus the version segment prefixed to the
original path exactly once (followed by the query suffix); a whitelisted
path is dispatched without the prefix. -/
theorem c4_version_prefixing (c : KMDClient) (m path : String)
    (params : Option (List (String × String))) (data : Option Json) :
    (path ∉ unversioned_paths →
      (buildRequest c m path params data).url =
        c.kmd_address ++ ( api_version_path_prefix ++ path ++ querySuffix params)) ∧
    (path ∈ unversioned_paths →
      (buildRequest c m path params data).url =
        c.kmd_address ++ (path ++ querySuffix params)) := by
  constructor <;> intro h <;> rw [buildRequest_url] <;> simp [h, strAppendAssoc]

/-- Witness for C4 at the paths "/wallet" (prefixed) and "/health"
(whitelisted, not prefixed). -/
theorem c4_version_prefixing_witness :
    ("/wallet" ∉ unversioned_paths ∧
      (buildRequest { kmd_token := "tok", kmd_address := "addr" } "POST" "/wallet"
          none none).url =
        "addr" ++ ( api_version_path_prefix ++ "/wallet" ++ querySuffix none)) ∧
    ("/health" ∈ unversioned_paths ∧
      (buildRequest { kmd_token := "tok", kmd_address := "addr" } "GET" "/health"
          none none).url = "addr" ++ ("/health" ++ querySuffix none)) :=
  ⟨⟨by decide,
    (c4_version_prefixing { kmd_token := "tok", kmd_address := "addr" } "POST" "/wallet"
        none none).1 (by decide)⟩,
   ⟨by decide,
    (c4_version_prefixing { kmd_token := "tok", kmd_address := "addr" } "GET" "/health"
        none none).2 (by decide)⟩⟩

/-- C9: generate_key ignores display_mnemonic — any two values of the
flag give the identical request and result, and the request body carries
only the wallet handle token. -/
theorem c9_display_mnemonic_irrelevant (c : KMDClient) (h : String) (b1 b2 : Bool)
    (resp : Json) :
    KMDClient.generate_key c h b1 resp = KMDClient.generate_key c h b2 resp ∧
    (KMDClient.generate_key c h b1 resp).1.body =
      ReqBody.jsonBytes (json_dumps (Json.obj [("wallet_handle_token", Json.str h)])) :=
  ⟨rfl, rfl⟩

/-- C10 (amended): kmd_request treats an empty params mapping exactly like
an absent one — the dispatched request is identical, with no query
string; an absent data mapping yields a request with no body, but an
empty data mapping is passed through to the transport unserialized as the
raw empty mapping, which is not the no-body case. -/
theorem c10_empty_params_and_data (c : KMDClient) (m path : String)
    (d : Option Json) (ps : Option (List (String × String))) :
    buildRequest c m path none d = buildRequest c m path (some []) d ∧
    querySuffix none = "" ∧ querySuffix (some []) = "" ∧
    (buildRequest c m path ps none).body = ReqBody.noData ∧
    (buildRequest c m path ps (some (Json.obj []))).body = ReqBody.rawObj (Json.obj []) := by
  refine ⟨rfl, rfl, rfl, ?_, ?_⟩ <;> cases ps <;> rfl

/-- Counterexample for C10 as stated: with data the empty dict, the
dispatched request's body is the raw empty mapping passed through, not
the absent body the claim requires. -/
theorem c10_empty_dict_body_counterexample :
    (buildRequest { kmd_token := "tok", kmd_address := "addr" } "POST" "/wallet" none
        (some (Json.obj []))).body = ReqBody.rawObj (Json.obj []) ∧
    (buildRequest { kmd_token := "tok", kmd_address := "addr" } "POST" "/wallet" none
        (some (Json.obj []))).body ≠ ReqBody.noData :=
  ⟨rfl, fun h => nomatch h⟩

/-- A list of string JSON values extracts to exactly those strings. -/
theorem asStrList_map_str (ps : List String) : asStrList (ps.map Json.str) = some ps := by
  induction ps with
  | nil => rfl
  | cons p rest ih => simp [asStrList, ih]

/-- C5: list_wallets answers the empty list when the wallets field is
absent and otherwise exactly the daemon's wallets array; list_keys
answers the empty list on a falsy (empty-object) response and otherwise
exactly the daemon's addresses array; list_multisig answers the empty
list on an empty-object response and otherwise exactly the daemon's
addresses array. -/
theorem c5_list_operations (c : KMDClient) (h : String)
    (f0 fw fk fm : List (String × Json)) (xs ys zs : List Json)
    (h0 : lookupField f0 "wallets" = none)
    (hw : lookupField fw "wallets" = some (Json.arr xs))
    (hk : lookupField fk "addresses" = some (Json.arr ys))
    (hkne : fk ≠ [])
    (hm : lookupField fm "addresses" = some (Json.arr zs))
    (hmne : fm ≠ []) :
    (KMDClient.list_wallets c (Json.obj f0)).2 = Except.ok (Json.arr []) ∧
    (KMDClient.list_wallets c (Json.obj fw)).2 = Except.ok (Json.arr xs) ∧
    (KMDClient.list_keys c h (Json.obj [])).2 = Except.ok (Json.arr []) ∧
    (KMDClient.list_keys c h (Json.obj fk)).2 = Except.ok (Json.arr ys) ∧
    (KMDClient.list_multisig c h (Json.obj [])).2 = Except.ok (Json.arr []) ∧
    (KMDClient.list_multisig c h (Json.obj fm)).2 = Except.ok (Json.arr zs) := by
  refine ⟨?_, ?_, rfl, ?_, rfl, ?_⟩
  · simp [KMDClient.list_wallets, py_contains, h0]
  · simp [KMDClient.list_wallets, py_contains, py_subscript, hw]
  · cases fk with
    | nil => exact absurd rfl hkne
    | cons q rest => simp [KMDClient.list_keys, py_truthy, py_subscript, hk]
  · cases fm with
    | nil => exact absurd rfl hmne
    | cons q rest => simp [KMDClient.list_multisig, isEmptyDict, py_subscript, hm]

/-- Witness for C5 at concrete daemon responses: a response without the
wallets field, a response with one wallet, the empty-object responses,
and responses with one address. -/
theorem c5_list_operations_witness :
    lookupField ([] : List (String × Json)) "wallets" = none ∧
    lookupField [("wallets", Json.arr [Json.str "w"])] "wallets" =
      some (Json.arr [Json.str "w"]) ∧
    lookupField [("addresses", Json.arr [Json.str "A"])] "addresses" =
      some (Json.arr [Json.str "A"]) ∧
    ([("addresses", Json.arr [Json.str "A"])] : List (String × Json)) ≠ [] ∧
    ((KMDClient.list_wallets { kmd_token := "t", kmd_address := "a" } (Json.obj [])).2 =
        Except.ok (Json.arr []) ∧
      (KMDClient.list_wallets { kmd_token := "t", kmd_address := "a" }
          (Json.obj [("wallets", Json.arr [Json.str "w"])])).2 =
        Except.ok (Json.arr [Json.str "w"]) ∧
      (KMDClient.list_keys { kmd_token := "t", kmd_address := "a" } "h" (Json.obj [])).2 =
        Except.ok (Json.arr []) ∧
      (KMDClient.list_keys { kmd_token := "t", kmd_address := "a" } "h"
          (Json.obj [("addresses", Json.arr [Json.str "A"])])).2 =
        Except.ok (Json.arr [Json.str "A"]) ∧
      (KMDClient.list_multisig { kmd_token := "t", kmd_address := "a" } "h"
          (Json.obj [])).2 = Except.ok (Json.arr []) ∧
      (KMDClient.list_multisig { kmd_token := "t", kmd_address := "a" } "h"
          (Json.obj [("addresses", Json.arr [Json.str "A"])])).2 =
        Except.ok (Json.arr [Json.str "A"])) :=
  by
  refine ⟨rfl, rfl, rfl, ?_, ?_⟩
  · intro hEq
    exact nomatch hEq
  · exact c5_list_operations { kmd_token := "t", kmd_address := "a" } "h"
      [] [("wallets", Json.arr [Json.str "w"])]
      [("addresses", Json.arr [Json.str "A"])] [("addresses", Json.arr [Json.str "A"])]
      [Json.str "w"] [Json.str "A"] [Json.str "A"]
      rfl rfl rfl (fun hh => nomatch hh) rfl (fun hh => nomatch hh)

/-- C6: exporting a multisig account built from the daemon's pks, version
and threshold, then importing the resulting structure, preserves the
(version, threshold, ordered addresses) tuple — the import query carries
the same version and threshold and re-encodes exactly the daemon's
ordered member keys. -/
theorem c6_export_import_roundtrip (c : KMDClient) (h a h2 : String)
    (ps : List String) (v t : Json) (fields : List (String × Json))
    (hP : lookupField fields "pks" = some (Json.arr (ps.map Json.str)))
    (hV : lookupField fields "multisig_version" = some v)
    (hT : lookupField fields "threshold" = some t) :
    ∃ msig : Multisig,
      (KMDClient.export_multisig c h a (Json.obj fields)).2 = Except.ok msig ∧
      msig.version = v ∧ msig.threshold = t ∧
      msig.subsigs.map (fun s => encode_address s.public_key) =
        ps.map (fun p => encode_address (b64decode p)) ∧
      KMDClient.import_multisig_query h2 msig =
        Json.obj [("wallet_handle_token", Json.str h2),
                  ("multisig_version", v), ("threshold", t),
                  ("pks", Json.arr (ps.map Json.str))] := by
  refine ⟨Multisig.ofAddresses v t (ps.map (fun p => encode_address (b64decode p))),
    ?_, rfl, rfl, ?_, ?_⟩
  · simp [KMDClient.export_multisig, py_subscript, hP, hV, hT, asStrList_map_str]
  · simp only [Multisig.ofAddresses, List.map_map]
    rfl
  · simp only [KMDClient.import_multisig_query, Multisig.ofAddresses, List.map_map]
    rfl

/-- Witness for C6 at a concrete daemon export response with one member
key. -/
theorem c6_export_import_roundtrip_witness :
    lookupField [("pks", Json.arr [Json.str "K"]), ("multisig_version", Json.num 1),
        ("threshold", Json.num 2)] "pks" = some (Json.arr ([ "K" ].map Json.str)) ∧
    lookupField [("pks", Json.arr [Json.str "K"]), ("multisig_version", Json.num 1),
        ("threshold", Json.num 2)] "multisig_version" = some (Json.num 1) ∧
    lookupField [("pks", Json.arr [Json.str "K"]), ("multisig_version", Json.num 1),
        ("threshold", Json.num 2)] "threshold" = some (Json.num 2) ∧
    (∃ msig : Multisig,
      (KMDClient.export_multisig { kmd_token := "t", kmd_address := "a" } "h" "ad"
          (Json.obj [("pks", Json.arr [Json.str "K"]), ("multisig_version", Json.num 1),
                     ("threshold", Json.num 2)])).2 = Except.ok msig ∧
      msig.version = Json.num 1 ∧ msig.threshold = Json.num 2 ∧
      msig.subsigs.map (fun s => encode_address s.public_key) =
        [ "K" ].map (fun p => encode_address (b64decode p)) ∧
      KMDClient.import_multisig_query "h2" msig =
        Json.obj [("wallet_handle_token", Json.str "h2"),
                  ("multisig_version", Json.num 1), ("threshold", Json.num 2),
                  ("pks", Json.arr ([ "K" ].map Json.str))]) := by
  refine ⟨rfl, rfl, rfl, ?_⟩
  exact c6_export_import_roundtrip { kmd_token := "t", kmd_address := "a" } "h" "ad" "h2"
    [ "K" ] (Json.num 1) (Json.num 2)
    [("pks", Json.arr [Json.str "K"]), ("multisig_version", Json.num 1),
     ("threshold", Json.num 2)] rfl rfl rfl

/-- C7: when the daemon response carries a multisig blob that decodes,
sign_multisig_transaction returns the caller's transaction with exactly
the multisig slot replaced by the decoded value — transaction and
auth_addr unchanged — the request body is the serialized signing query,
and that query carries a signer field exactly when the transaction has a
non-None auth_addr. -/
theorem c7_sign_multisig_mutation (c : KMDClient) (h p pk : String)
    (mtx : MultisigTransaction) (fields : List (String × Json)) (m : String)
    (msig : Multisig)
    (hresp : lookupField fields "multisig" = some (Json.str m))
    (hdec : msgpack_decode_msig m = Except.ok msig) :
    (KMDClient.sign_multisig_transaction c h p pk mtx (Json.obj fields)).2 =
        Except.ok { mtx with multisig := msig } ∧
    ({ mtx with multisig := msig } : MultisigTransaction).transaction = mtx.transaction ∧
    ({ mtx with multisig := msig } : MultisigTransaction).auth_addr = mtx.auth_addr ∧
    (KMDClient.sign_multisig_transaction c h p pk mtx (Json.obj fields)).1.body =
        ReqBody.jsonBytes (json_dumps (Json.obj (KMDClient.sign_multisig_query h p pk mtx))) ∧
    (∀ aa, mtx.auth_addr = some aa →
        lookupField (KMDClient.sign_multisig_query h p pk mtx) "signer" =
          some (Json.str (b64encode (decode_address aa)))) ∧
    (mtx.auth_addr = none →
        lookupField (KMDClient.sign_multisig_query h p pk mtx) "signer" = none) := by
  have hq : py_truthy (Json.obj (KMDClient.sign_multisig_query h p pk mtx)) = true := by
    cases haa : mtx.auth_addr <;> simp [KMDClient.sign_multisig_query, haa, py_truthy]
  refine ⟨?_, rfl, rfl, ?_, ?_, ?_⟩
  · simp [KMDClient.sign_multisig_transaction, py_subscript, hresp, hdec]
  · simp [KMDClient.sign_multisig_transaction, buildRequest, hq]
  · intro aa haa
    simp [KMDClient.sign_multisig_query, haa, lookupField]
  · intro haa
    simp [KMDClient.sign_multisig_query, haa, lookupField]

/-- A concrete multisig transaction for the C7 witness, carrying an
auth_addr. -/
def c7mtx : MultisigTransaction :=
  { transaction := { blob := "txnblob" },
    multisig := { version := Json.num 1, threshold := Json.num 2, subsigs := [] },
    auth_addr := some "AA" }

/-- A concrete decodable multisig blob for the C7 witness. -/
def c7blob : String := "\x7b\"v\": 1, \"thr\": 2, \"subsig\": [\"K\"]\x7d"

/-- The multisig value the C7 witness blob decodes to. -/
def c7msig : Multisig :=
  { version := Json.num 1, threshold := Json.num 2,
    subsigs := [{ public_key := b64decode "K" }] }

/-- Witness for C7 at a concrete transaction and daemon response. -/
theorem c7_sign_multisig_mutation_witness :
    lookupField [("multisig", Json.str c7blob)] "multisig" = some (Json.str c7blob) ∧
    msgpack_decode_msig c7blob = Except.ok c7msig ∧
    ((KMDClient.sign_multisig_transaction { kmd_token := "t", kmd_address := "a" }
          "h" "p" "PK" c7mtx (Json.obj [("multisig", Json.str c7blob)])).2 =
        Except.ok { c7mtx with multisig := c7msig } ∧
      ({ c7mtx with multisig := c7msig } : MultisigTransaction).transaction =
        c7mtx.transaction ∧
      ({ c7mtx with multisig := c7msig } : MultisigTransaction).auth_addr =
        c7mtx.auth_addr ∧
      (KMDClient.sign_multisig_transaction { kmd_token := "t", kmd_address := "a" }
          "h" "p" "PK" c7mtx (Json.obj [("multisig", Json.str c7blob)])).1.body =
        ReqBody.jsonBytes
          (json_dumps (Json.obj (KMDClient.sign_multisig_query "h" "p" "PK" c7mtx))) ∧
      (∀ aa, c7mtx.auth_addr = some aa →
          lookupField (KMDClient.sign_multisig_query "h" "p" "PK" c7mtx) "signer" =
            some (Json.str (b64encode (decode_address aa)))) ∧
      (c7mtx.auth_addr = none →
          lookupField (KMDClient.sign_multisig_query "h" "p" "PK" c7mtx) "signer" =
            none)) := by
  refine ⟨rfl, rfl, ?_⟩
  exact c7_sign_multisig_mutation { kmd_token := "t", kmd_address := "a" }
    "h" "p" "PK" c7mtx [("multisig", Json.str c7blob)] c7blob c7msig rfl rfl

/-- Every operation leaves the client configuration it was called with
unchanged: no method body assigns to the token or the address. -/
theorem execCall_client (c : KMDClient) (call : KMDCall) (resp : Json) :
    (execCall c call resp).1 = c := by
  cases call <;> rfl

/-- C8: running any sequence of operations leaves the client
configuration unchanged, dispatches exactly one request per executed
operation, and computes every request and result from the original
configuration, that operation's arguments and that operation's own
response alone — no state or cached result flows between calls. -/
theorem c8_stateless_single_roundtrip (c : KMDClient) (calls : List KMDCall)
    (resps : List Json) :
    (runCalls c calls resps).client = c ∧
    (runCalls c calls resps).requests.length = min calls.length resps.length ∧
    (runCalls c calls resps).requests =
      (calls.zip resps).map (fun p => (execCall c p.1 p.2).2.1) ∧
    (runCalls c calls resps).results =
      (calls.zip resps).map (fun p => (execCall c p.1 p.2).2.2) := by
  induction calls generalizing c resps with
  | nil => cases resps <;> simp [runCalls]
  | cons call calls ih =>
    cases resps with
    | nil => simp [runCalls]
    | cons resp resps =>
      have hc : (execCall c call resp).1 = c := execCall_client c call resp
      obtain ⟨h1, h2, h3, h4⟩ := ih c resps
      refine ⟨?_, ?_, ?_, ?_⟩
      · simp [runCalls, hc, h1]
      · simp [runCalls, hc, h2, Nat.succ_min_succ]
      · simp [runCalls, hc, h3]
      · simp [runCalls, hc, h4]
